import Mathlib

/-!
Verification development for `engine/kernel/kernel.cpp`.

A shallow embedding of the kernel harness: the gamepad-state bridge
(`kernel_read_pad`, `GamePadStatusHandler`, `GamePadRemovedHandler`, the hot-plug
scan), the asset loader (`kernel_load_asset`, `kernel_load_asset_len`) and
`CKernel::Run` with its frame-pacing loop.

Calls that leave the kernel (FatFs, the heap, the USB stack, the timer, the game
runtime) are recorded in program order as a list of `Event`s; what those calls
answer is supplied by explicit environment records.
-/

namespace Obox

/-! ## Data model -/

/-- Record `TGamePadState` of the USB gamepad driver: the digital button bitfield that
the kernel reads, and the remaining (axis and hat) payload that it only copies. -/
structure TGamePadState where
  buttons : Nat
  axes : List Int
deriving DecidableEq, Repr

/-- Value `{0}` used to initialise every cell of `gp_states`. -/
def TGamePadState.zero : TGamePadState := { buttons := 0, axes := [] }

/-- Result code of a FatFs call; `FR_OK` is `0`, every other value is a failure. -/
abbrev FRESULT := Nat

/-- Success code of FatFs. -/
def FR_OK : FRESULT := 0

/-- Record `struct fb_definition` (line 14). -/
structure fb_definition where
  ptr : Nat
  width : Int
  height : Int
  pitch : Int
deriving DecidableEq, Repr

/-- What the kernel asks of a `CBcmFrameBuffer` object in `Run`. -/
structure CBcmFrameBuffer where
  GetBuffer : Nat
  GetPitch : Int
  GetWidth : Int
  GetHeight : Int
  GetDepth : Nat
deriving DecidableEq, Repr

/-- The two FatFs file objects of the source: the global `log_file` and the local `fp`
of `kernel_load_asset`. -/
inductive FileRef where
  | log_file
  | fp
deriving DecidableEq, Repr

/-- Calls and stores of the kernel, in program order. The `*_assign` events mark the
stores to `update_ticks`, `render_ticks` and `gp_states[i]`. -/
inductive Event where
  | f_mount (drive : String)
  | f_unmount (drive : String)
  | f_open (f : FileRef) (path : String)
  | f_close (f : FileRef)
  | f_write (str : String)
  | f_sync
  | f_size
  | f_read (btr : Int)
  | HeapAllocate (size : Int)
  | DisableIRQs
  | DisableFIQs
  | EnableFIQs
  | EnableIRQs
  | GetClockTicks64 (t : Nat)
  | update_ticks_assign (t : Nat)
  | render_ticks_assign (t : Nat)
  | odin_startup_runtime
  | game_update (dt : Int)
  | game_render
  | game_shutdown
  | UpdatePlugAndPlay (r : Bool)
  | GetDevice (number : Nat) (dev : Nat)
  | GetInitialState (dev : Nat) (r : Option TGamePadState)
  | gp_states_assign (i : Nat) (st : TGamePadState)
  | RegisterRemovedHandler (dev : Nat)
  | RegisterStatusHandler (dev : Nat)
deriving DecidableEq, Repr

/-- Constants that `kernel.cpp` takes from its headers (`MAX_GAMEPADS`, `CLOCKHZ`,
`DRIVE`, `LOGFILE`), and the tick-to-nanosecond conversion of line 202,
`(int64_t)(((double)d / (double)CLOCKHZ) * 1000000.0) * 1000`, as a function
`delta_ns` of the 64-bit tick difference `d`: it is floating-point arithmetic and is
left uninterpreted. -/
structure Platform where
  MAX_GAMEPADS : Nat
  CLOCKHZ : Nat
  DRIVE : String
  LOGFILE : String
  delta_ns : Nat → Int

/-- Globals of `kernel.cpp` (`running`, `last_asset_len`, `framebuffer`, `gp_states`),
the members of `CKernel` that the file uses (`s_pFrameBuffer`, `m_pGamePad`, a device
handle being a pointer with `0` for empty) and the two locals of `Run`
(`update_ticks`, `render_ticks`). The arrays are indexed by `Nat`; their cells are the
indices below `MAX_GAMEPADS`. -/
structure State where
  running : Bool
  last_asset_len : Int
  framebuffer : fb_definition
  gp_states : Nat → TGamePadState
  s_pFrameBuffer : Option CBcmFrameBuffer
  m_pGamePad : Nat → Nat
  update_ticks : Nat
  render_ticks : Nat

/-- State after static initialisation and the `CKernel` constructor (lines 8-22 and
108-122): `fb` is the frame buffer object, absent when its `Initialize` failed. The
locals of `Run` do not hold a value yet; they are given `0`. -/
def boot (fb : Option CBcmFrameBuffer) : State :=
  { running := true
    last_asset_len := 0
    framebuffer := { ptr := 0, width := 0, height := 0, pitch := 0 }
    gp_states := fun _ => TGamePadState.zero
    s_pFrameBuffer := fb
    m_pGamePad := fun _ => 0
    update_ticks := 0
    render_ticks := 0 }

/-! ## Boundary operations -/

/-- Function `kernel_write_log` (lines 32-35): one write, one sync. -/
def kernel_write_log (str : String) : List Event :=
  [Event.f_write str, Event.f_sync]

/-- Function `kernel_halt` (lines 37-39). -/
def kernel_halt (s : State) : State :=
  { s with running := false }

/-- Function `kernel_read_pad` (lines 61-76): the value returned and the calls made. The
state is not written, so it is returned as it came. -/
def kernel_read_pad (P : Platform) (s : State) (index : Int) : Nat × State × List Event :=
  let buttons := 0
  if index < 0 ∨ index ≥ (P.MAX_GAMEPADS : Int) then
    (buttons, s, [])
  else
    let buttons := (s.gp_states index.toNat).buttons
    (buttons, s, [Event.DisableIRQs, Event.DisableFIQs, Event.EnableFIQs, Event.EnableIRQs])

/-- Handler `CKernel::GamePadStatusHandler` (lines 227-229). -/
def GamePadStatusHandler (s : State) (nDeviceIndex : Nat) (pState : TGamePadState) :
    State × List Event :=
  ({ s with gp_states := Function.update s.gp_states nDeviceIndex pState },
   [Event.gp_states_assign nDeviceIndex pState])

/-- Loop of `CKernel::GamePadRemovedHandler` (lines 233-238), from slot `i` on, with
`n` slots left to visit. -/
def removedFrom (pDevice : Nat) (m : Nat → Nat) : Nat → Nat → Nat → Nat
  | 0, _ => m
  | n + 1, i => if m i = pDevice then Function.update m i 0 else removedFrom pDevice m n (i + 1)

/-- Handler `CKernel::GamePadRemovedHandler` (lines 231-239). -/
def GamePadRemovedHandler (P : Platform) (s : State) (pDevice : Nat) : State :=
  { s with m_pGamePad := removedFrom pDevice s.m_pGamePad P.MAX_GAMEPADS 0 }

/-- Function `kernel_load_asset_len` (lines 103-105). -/
def kernel_load_asset_len (s : State) : Int :=
  s.last_asset_len

/-- Conversion `(int)` of a file size to a 32-bit signed integer (line 85). -/
def toInt32 (n : Nat) : Int :=
  if n % 2 ^ 32 < 2 ^ 31 then ((n % 2 ^ 32 : Nat) : Int) else ((n % 2 ^ 32 : Nat) : Int) - 2 ^ 32

/-- Answers of FatFs and of the heap to the calls of `kernel_load_asset`: the result of
`f_open` and the size reported by `f_size` for a path, the pointer returned by
`HeapAllocate` for a size (`0` when the heap is exhausted), and for `f_read` of `btr`
bytes the result code together with the number of bytes delivered. -/
structure Storage where
  f_open : String → FRESULT
  f_size : String → Nat
  HeapAllocate : Nat → Nat
  f_read : String → Nat → FRESULT × Nat

/-- Function `kernel_load_asset` (lines 78-101): the pointer returned (`0` is null), the
state after the call and the calls made. The byte count of `f_read` is not asked for
(its last argument is `0`), only the result code is looked at. -/
def kernel_load_asset (disk : Storage) (s : State) (path : String) : Nat × State × List Event :=
  let s := { s with last_asset_len := 0 }
  if disk.f_open path ≠ FR_OK then
    (0, s, [Event.f_open FileRef.fp path])
  else
    let s := { s with last_asset_len := toInt32 (disk.f_size path) }
    if s.last_asset_len < 0 then
      (0, { s with last_asset_len := 0 },
        [Event.f_open FileRef.fp path, Event.f_size, Event.f_close FileRef.fp])
    else
      let ptr := disk.HeapAllocate s.last_asset_len.toNat
      if (disk.f_read path s.last_asset_len.toNat).1 ≠ FR_OK then
        (0, { s with last_asset_len := 0 },
          [Event.f_open FileRef.fp path, Event.f_size, Event.HeapAllocate s.last_asset_len,
           Event.f_read s.last_asset_len, Event.f_close FileRef.fp])
      else
        (ptr, s,
          [Event.f_open FileRef.fp path, Event.f_size, Event.HeapAllocate s.last_asset_len,
           Event.f_read s.last_asset_len, Event.f_close FileRef.fp])

/-! ## Hot-plug scan -/

/-- Answers of the USB stack during one hot-plug scan: `UpdatePlugAndPlay i` is the result
of the call made in the loop condition when the loop variable is `i`, `GetDevice n` the
pointer returned for the name `upad` with number `n` (`0` when there is none),
`GetInitialState dev` the initial state of device `dev` (`none` for a null pointer). -/
structure PlugEnv where
  UpdatePlugAndPlay : Nat → Bool
  GetDevice : Nat → Nat
  GetInitialState : Nat → Option TGamePadState

/-- Body of the scan loop of `Run` for slot `i` (lines 181-198). -/
def scan_body (env : PlugEnv) (i : Nat) (s : State) : State × List Event :=
  if s.m_pGamePad i ≠ 0 then
    (s, [])
  else
    let dev := env.GetDevice (i + 1)
    let s := { s with m_pGamePad := Function.update s.m_pGamePad i dev }
    if dev = 0 then
      (s, [Event.GetDevice (i + 1) dev])
    else
      match env.GetInitialState dev with
      | none =>
        ({ s with m_pGamePad := Function.update s.m_pGamePad i 0 },
          [Event.GetDevice (i + 1) dev, Event.GetInitialState dev none]
            ++ kernel_write_log "Could not initialize gamepad!\n")
      | some st =>
        ({ s with gp_states := Function.update s.gp_states i st },
          [Event.GetDevice (i + 1) dev, Event.GetInitialState dev (some st)]
            ++ kernel_write_log "Gamepad connected!\n"
            ++ [Event.gp_states_assign i st, Event.RegisterRemovedHandler dev,
                Event.RegisterStatusHandler dev])

/-- Scan loop of `Run` (line 180) from loop variable `i` on, `n` being the number of slots
from `i` up to `MAX_GAMEPADS`: the condition calls `UpdatePlugAndPlay` first and then
compares `i` with `MAX_GAMEPADS`. -/
def scan_from (env : PlugEnv) : Nat → Nat → State → State × List Event
  | 0, i, s => (s, [Event.UpdatePlugAndPlay (env.UpdatePlugAndPlay i)])
  | n + 1, i, s =>
    if env.UpdatePlugAndPlay i then
      let r := scan_body env i s
      let r2 := scan_from env n (i + 1) r.1
      (r2.1, Event.UpdatePlugAndPlay true :: r.2 ++ r2.2)
    else
      (s, [Event.UpdatePlugAndPlay false])

/-- Hot-plug scan of one frame-loop iteration (lines 180-199). -/
def scan (P : Platform) (env : PlugEnv) (s : State) : State × List Event :=
  scan_from env P.MAX_GAMEPADS 0 s

/-! ## Frame loop and `Run` -/

/-- Subtraction of two `u64` values. -/
def sub_u64 (a b : Nat) : Nat :=
  (a + (2 ^ 64 - b % 2 ^ 64)) % 2 ^ 64

/-- What the surroundings answer during one frame-loop iteration: the USB stack, the
tick count read at line 201, and whether the runtime calls `kernel_halt` from inside
`game_update` and `game_render`. -/
structure IterEnv where
  plug : PlugEnv
  now : Nat
  update_halts : Bool
  render_halts : Bool

/-- Body of the frame loop (lines 180-213). -/
def frame_iteration (P : Platform) (it : IterEnv) (s : State) : State × List Event :=
  let r := scan P it.plug s
  let s := r.1
  let now := it.now
  let dt := P.delta_ns (sub_u64 now s.update_ticks)
  if dt ≤ 0 then
    (s, r.2 ++ [Event.GetClockTicks64 now])
  else
    let s := { s with update_ticks := now }
    let s := if it.update_halts then kernel_halt s else s
    let ev := r.2 ++ [Event.GetClockTicks64 now, Event.update_ticks_assign now, Event.game_update dt]
    if sub_u64 now s.render_ticks ≥ P.CLOCKHZ / 60 then
      let s := { s with render_ticks := now }
      let s := if it.render_halts then kernel_halt s else s
      (s, ev ++ [Event.render_ticks_assign now, Event.game_render])
    else
      (s, ev)

/-- Frame loop `while (running)` (line 178) over the iterations described by the script;
it stops at the first loop head that finds `running` cleared, or when the script ends. -/
def frame_loop (P : Platform) : List IterEnv → State → State × List Event
  | [], s => (s, [])
  | it :: rest, s =>
    if s.running then
      let r := frame_iteration P it s
      let r2 := frame_loop P rest r.1
      (r2.1, r.2 ++ r2.2)
    else
      (s, [])

/-- What the surroundings answer to `Run` before the frame loop: the results of `f_mount`
and of `f_open` on the log file, the tick count read at line 175, and whether the
runtime calls `kernel_halt` from inside `odin_startup_runtime`. -/
structure RunEnv where
  f_mount : FRESULT
  f_open_log : FRESULT
  ticks0 : Nat
  startup_halts : Bool

/-- Label `shutdown:` of `Run` (lines 217-222). -/
def shutdown_label (P : Platform) : List Event :=
  [Event.f_close FileRef.log_file, Event.f_unmount P.DRIVE]

/-- First part of `CKernel::Run`, up to the call of `odin_startup_runtime` (lines
154-176): the state with which the frame loop is entered, or `none` when a step fails
and control goes to the label `shutdown`, and the calls made up to there. -/
def bringup (P : Platform) (env : RunEnv) (s : State) : Option State × List Event :=
  if env.f_mount ≠ FR_OK then
    (none, [Event.f_mount P.DRIVE])
  else if env.f_open_log ≠ FR_OK then
    (none, [Event.f_mount P.DRIVE, Event.f_open FileRef.log_file P.LOGFILE])
  else
    let ev := [Event.f_mount P.DRIVE, Event.f_open FileRef.log_file P.LOGFILE]
      ++ kernel_write_log "Logging initialize!\n"
    match s.s_pFrameBuffer with
    | none =>
      (none, ev ++ kernel_write_log "Could not initialize framebuffer!\n")
    | some fb =>
      if fb.GetDepth ≠ 32 then
        (none, ev ++ kernel_write_log "Invalid framebuffer format!\n")
      else
        let s := { s with framebuffer :=
          { ptr := fb.GetBuffer, pitch := fb.GetPitch, width := fb.GetWidth,
            height := fb.GetHeight } }
        let s := { s with render_ticks := env.ticks0 }
        let s := { s with update_ticks := s.render_ticks }
        let ev := ev ++ [Event.GetClockTicks64 env.ticks0,
          Event.render_ticks_assign env.ticks0, Event.update_ticks_assign env.ticks0]
        let s := if env.startup_halts then kernel_halt s else s
        (some s, ev ++ [Event.odin_startup_runtime])

/-- Function `CKernel::Run` (lines 148-223). The result is `none` when the script ends
with the frame loop still running, that is when `Run` has not returned yet. -/
def Run (P : Platform) (env : RunEnv) (script : List IterEnv) (s : State) :
    Option (State × List Event) :=
  match bringup P env s with
  | (none, ev) => some (s, ev ++ shutdown_label P)
  | (some s1, ev) =>
    let r := frame_loop P script s1
    if r.1.running then
      none
    else
      some (r.1, ev ++ r.2 ++ [Event.game_shutdown] ++ shutdown_label P)

/-- All steps before the frame loop succeed: the mount, the opening of the log file and
the check of the frame buffer. -/
def bringup_ok (env : RunEnv) (s : State) : Bool :=
  env.f_mount == FR_OK && env.f_open_log == FR_OK &&
    (match s.s_pFrameBuffer with
     | some fb => fb.GetDepth == 32
     | none => false)

/-! ## Histories of the gamepad tables -/

/-- One step that touches the gamepad tables: a pass through the scan-loop body for a
slot, a whole hot-plug scan, a call of the status handler, or a call of the removed
handler. -/
inductive PadOp where
  | scan_step (env : PlugEnv) (i : Nat)
  | scan_pass (env : PlugEnv)
  | status (nDeviceIndex : Nat) (pState : TGamePadState)
  | removed (pDevice : Nat)

/-- Effect of one `PadOp` on the state and on the history of calls and stores. -/
def PadOp.step (P : Platform) (c : State × List Event) : PadOp → State × List Event
  | PadOp.scan_step env i => ((scan_body env i c.1).1, c.2 ++ (scan_body env i c.1).2)
  | PadOp.scan_pass env => ((scan P env c.1).1, c.2 ++ (scan P env c.1).2)
  | PadOp.status n st => ((GamePadStatusHandler c.1 n st).1, c.2 ++ (GamePadStatusHandler c.1 n st).2)
  | PadOp.removed dev => (GamePadRemovedHandler P c.1 dev, c.2)

/-- Effect of a sequence of `PadOp`s. -/
def exec (P : Platform) (ops : List PadOp) (c : State × List Event) : State × List Event :=
  ops.foldl (PadOp.step P) c

/-- The scan steps that one whole scan goes through, from loop variable `i` on with `n`
slots left: one step per slot, for as long as `UpdatePlugAndPlay` answers true. -/
def scan_steps (env : PlugEnv) : Nat → Nat → List PadOp
  | 0, _ => []
  | n + 1, i =>
    if env.UpdatePlugAndPlay i then PadOp.scan_step env i :: scan_steps env n (i + 1) else []

/-- The most recent store to `gp_states[i]` after one more event. -/
def note_write (i : Nat) (acc : Option TGamePadState) : Event → Option TGamePadState
  | Event.gp_states_assign j st => if j = i then some st else acc
  | _ => acc

/-- Most recent store to `gp_states[i]` in a history, if any. -/
def last_write (i : Nat) (tr : List Event) : Option TGamePadState :=
  tr.foldl (note_write i) none

/-- The tick value of a store to `render_ticks`. -/
def Event.renderTick : Event → Option Nat
  | Event.render_ticks_assign t => some t
  | _ => none

/-- Tick values stored to `render_ticks`, in order. -/
def render_ticks_of (tr : List Event) : List Nat :=
  tr.filterMap Event.renderTick

/-- Tick values at which `game_render` is called: for each call, the value of the most
recent clock read before it (`t` when there is none in the history). -/
def render_calls : Nat → List Event → List Nat
  | _, [] => []
  | _, Event.GetClockTicks64 t :: es => render_calls t es
  | t, Event.game_render :: es => t :: render_calls t es
  | t, _ :: es => render_calls t es

/-- The gamepad-state table holds, in every cell, the most recent value stored to it
according to the history, and the initial zero value when there is none. -/
def TableInv (c : State × List Event) : Prop :=
  ∀ i, c.1.gp_states i = (last_write i c.2).getD TGamePadState.zero

/-- Device-slot invariant: for a slot with a device handle, the history holds the
initial-state query of that device and, after it, the store of its answer to the
cell of the slot. -/
def SlotInv (c : State × List Event) : Prop :=
  ∀ i, c.1.m_pGamePad i ≠ 0 →
    ∃ st, [Event.GetInitialState (c.1.m_pGamePad i) (some st),
           Event.gp_states_assign i st].Sublist c.2

/-- Events that only the hot-plug scan produces. -/
def Event.isPlug : Event → Bool
  | Event.UpdatePlugAndPlay _ => true
  | Event.GetDevice _ _ => true
  | Event.GetInitialState _ _ => true
  | Event.gp_states_assign _ _ => true
  | Event.RegisterRemovedHandler _ => true
  | Event.RegisterStatusHandler _ => true
  | Event.f_write _ => true
  | Event.f_sync => true
  | _ => false

/-- Events that the frame loop produces. -/
def Event.isFrame : Event → Bool
  | Event.GetClockTicks64 _ => true
  | Event.update_ticks_assign _ => true
  | Event.render_ticks_assign _ => true
  | Event.game_update _ => true
  | Event.game_render => true
  | e => e.isPlug

/-- The four entry points of the game runtime. -/
def Event.isRuntime : Event → Bool
  | Event.odin_startup_runtime => true
  | Event.game_update _ => true
  | Event.game_render => true
  | Event.game_shutdown => true
  | _ => false

/-- Platform used in the examples: four gamepad slots and a 1 MHz tick, for which the
conversion of line 202 gives a thousand nanoseconds per tick on small differences. -/
def P4 : Platform :=
  { MAX_GAMEPADS := 4, CLOCKHZ := 1000000, DRIVE := "SD:", LOGFILE := "SD:/log.txt",
    delta_ns := fun d => (d : Int) * 1000 }

/-- A USB stack that reports a change once and offers device `dev` with initial state
`init` under every name. -/
def plugOne (dev : Nat) (init : Option TGamePadState) : PlugEnv :=
  { UpdatePlugAndPlay := fun i => i == 0, GetDevice := fun _ => dev,
    GetInitialState := fun _ => init }

/-- A USB stack that reports no change. -/
def plugNone : PlugEnv :=
  { UpdatePlugAndPlay := fun _ => false, GetDevice := fun _ => 0,
    GetInitialState := fun _ => none }

/-- A storage that answers every call alike: `f_open` with `o`, `f_size` with `size`,
`HeapAllocate` with `ptr`, `f_read` with result `r` and `delivered` bytes. -/
def storageOf (o : FRESULT) (size ptr : Nat) (r : FRESULT) (delivered : Nat) : Storage :=
  { f_open := fun _ => o, f_size := fun _ => size, HeapAllocate := fun _ => ptr,
    f_read := fun _ _ => (r, delivered) }

/-- A storage that holds the one file `sprite.bin` of 4096 bytes; opening any other path
fails with `FR_NO_FILE` (4). -/
def diskOne : Storage :=
  { f_open := fun p => if p = "sprite.bin" then FR_OK else 4, f_size := fun _ => 4096,
    HeapAllocate := fun _ => 65536, f_read := fun _ n => (FR_OK, n) }

/-- A frame buffer of depth 32. -/
def fb32 : CBcmFrameBuffer :=
  { GetBuffer := 1024, GetPitch := 2560, GetWidth := 640, GetHeight := 480, GetDepth := 32 }

/-- An iteration in which the USB stack reports no change, the clock reads `t` and the
runtime does not halt. -/
def tickAt (t : Nat) : IterEnv :=
  { plug := plugNone, now := t, update_halts := false, render_halts := false }

/-- An iteration in which the USB stack reports no change, the clock reads `t` and the
runtime calls `kernel_halt` from `game_update`. -/
def haltAt (t : Nat) : IterEnv :=
  { plug := plugNone, now := t, update_halts := true, render_halts := false }

/-- Surroundings in which the mount and the opening of the log succeed, the clock reads
100 at line 175 and the runtime does not halt during startup. -/
def envOK : RunEnv :=
  { f_mount := FR_OK, f_open_log := FR_OK, ticks0 := 100, startup_halts := false }

/-- Surroundings in which `f_mount` fails with `FR_DISK_ERR` (1). -/
def envNoMount : RunEnv :=
  { f_mount := 1, f_open_log := FR_OK, ticks0 := 100, startup_halts := false }

/-- The boot state with both cursors of `Run` at tick `t`. -/
def cursorsAt (t : Nat) : State :=
  { boot (some fb32) with update_ticks := t, render_ticks := t }

/-! ## Gamepad-state bridge -/

theorem last_write_append (i : Nat) (a b : List Event) :
    last_write i (a ++ b) = b.foldl (note_write i) (last_write i a) := by
  simp [last_write, List.foldl_append]

theorem removedFrom_cases (d : Nat) (m : Nat → Nat) (n i j : Nat) :
    removedFrom d m n i j = m j ∨ removedFrom d m n i j = 0 := by
  induction n generalizing i with
  | zero => left; rfl
  | succ n ih =>
    unfold removedFrom
    split_ifs with h
    · by_cases hj : j = i
      · right; subst hj; simp
      · left; simp [Function.update_noteq hj]
    · exact ih (i + 1)

theorem scan_body_busy (env : PlugEnv) (i : Nat) (s : State) (h : s.m_pGamePad i ≠ 0) :
    scan_body env i s = (s, []) := by
  simp [scan_body, h]

theorem scan_body_absent (env : PlugEnv) (i : Nat) (s : State) (h : s.m_pGamePad i = 0)
    (hd : env.GetDevice (i + 1) = 0) :
    scan_body env i s =
      ({ s with m_pGamePad := Function.update s.m_pGamePad i 0 }, [Event.GetDevice (i + 1) 0]) := by
  simp [scan_body, h, hd]

theorem scan_body_null (env : PlugEnv) (i : Nat) (s : State) (h : s.m_pGamePad i = 0)
    (hd : env.GetDevice (i + 1) ≠ 0) (hn : env.GetInitialState (env.GetDevice (i + 1)) = none) :
    scan_body env i s =
      ({ s with m_pGamePad := Function.update s.m_pGamePad i 0 },
        [Event.GetDevice (i + 1) (env.GetDevice (i + 1)),
         Event.GetInitialState (env.GetDevice (i + 1)) none,
         Event.f_write "Could not initialize gamepad!\n", Event.f_sync]) := by
  simp [scan_body, h, hd, hn, kernel_write_log]

theorem scan_body_commit (env : PlugEnv) (i : Nat) (s : State) (st : TGamePadState)
    (h : s.m_pGamePad i = 0) (hd : env.GetDevice (i + 1) ≠ 0)
    (hn : env.GetInitialState (env.GetDevice (i + 1)) = some st) :
    scan_body env i s =
      ({ s with m_pGamePad := Function.update s.m_pGamePad i (env.GetDevice (i + 1)),
                gp_states := Function.update s.gp_states i st },
        [Event.GetDevice (i + 1) (env.GetDevice (i + 1)),
         Event.GetInitialState (env.GetDevice (i + 1)) (some st),
         Event.f_write "Gamepad connected!\n", Event.f_sync,
         Event.gp_states_assign i st,
         Event.RegisterRemovedHandler (env.GetDevice (i + 1)),
         Event.RegisterStatusHandler (env.GetDevice (i + 1))]) := by
  simp [scan_body, h, hd, hn, kernel_write_log]

theorem scan_body_tableInv (env : PlugEnv) (i : Nat) (c : State × List Event)
    (h : TableInv c) : TableInv ((scan_body env i c.1).1, c.2 ++ (scan_body env i c.1).2) := by
  intro j
  have hj := h j
  by_cases h1 : c.1.m_pGamePad i = 0
  · by_cases h2 : env.GetDevice (i + 1) = 0
    · rw [scan_body_absent env i c.1 h1 h2]
      simpa [last_write_append, note_write] using hj
    · cases h3 : env.GetInitialState (env.GetDevice (i + 1)) with
      | none =>
        rw [scan_body_null env i c.1 h1 h2 h3]
        simpa [last_write_append, note_write] using hj
      | some st =>
        rw [scan_body_commit env i c.1 st h1 h2 h3]
        simp only [last_write_append, List.foldl_cons, List.foldl_nil, note_write]
        by_cases hij : i = j
        · subst hij; simp
        · have hji : j ≠ i := fun e => hij e.symm
          simp [hij, Function.update_noteq hji, hj]
  · rw [scan_body_busy env i c.1 h1]
    simpa using hj

theorem scan_from_tableInv (env : PlugEnv) (n i : Nat) (c : State × List Event)
    (h : TableInv c) : TableInv ((scan_from env n i c.1).1, c.2 ++ (scan_from env n i c.1).2) := by
  induction n generalizing i c with
  | zero =>
    intro j
    simpa [scan_from, last_write_append, note_write] using h j
  | succ n ih =>
    unfold scan_from
    split_ifs with hp
    · have h1 := scan_body_tableInv env i c h
      have h2 := ih (i + 1) _ h1
      intro j
      have h3 := h2 j
      simp only [last_write_append, List.foldl_append, List.foldl_cons, note_write,
        List.cons_append] at h3 ⊢
      exact h3
    · intro j
      simpa [last_write_append, note_write] using h j

theorem step_tableInv (P : Platform) (c : State × List Event) (op : PadOp)
    (h : TableInv c) : TableInv (PadOp.step P c op) := by
  cases op with
  | scan_step env i => exact scan_body_tableInv env i c h
  | scan_pass env => exact scan_from_tableInv env _ 0 c h
  | status n st =>
    intro j
    have hj := h j
    simp only [PadOp.step, GamePadStatusHandler, last_write_append, List.foldl_cons,
      List.foldl_nil, note_write]
    by_cases hnj : n = j
    · subst hnj; simp
    · have hjn : j ≠ n := fun e => hnj e.symm
      simp [hnj, Function.update_noteq hjn, hj]
  | removed dev =>
    intro j
    exact h j

theorem exec_tableInv (P : Platform) (ops : List PadOp) (c : State × List Event)
    (h : TableInv c) : TableInv (exec P ops c) := by
  induction ops generalizing c with
  | nil => exact h
  | cons op ops ih => exact ih _ (step_tableInv P c op h)

theorem boot_tableInv (fb : Option CBcmFrameBuffer) : TableInv (boot fb, []) := by
  intro i
  rfl

theorem kernel_read_pad_in_range (P : Platform) (s : State) (i : Nat)
    (hi : i < P.MAX_GAMEPADS) :
    kernel_read_pad P s (i : Int) =
      ((s.gp_states i).buttons, s,
        [Event.DisableIRQs, Event.DisableFIQs, Event.EnableFIQs, Event.EnableIRQs]) := by
  have h1 : ¬ ((i : Int) < 0 ∨ (i : Int) ≥ (P.MAX_GAMEPADS : Int)) := by
    push_neg
    exact ⟨Int.natCast_nonneg i, by exact_mod_cast hi⟩
  simp only [kernel_read_pad, if_neg h1, Int.toNat_ofNat]

theorem exec_append (P : Platform) (a b : List PadOp) (c : State × List Event) :
    exec P (a ++ b) c = exec P b (exec P a c) := by
  simp [exec, List.foldl_append]

theorem scan_body_gp_other (env : PlugEnv) (i j : Nat) (s : State) (hji : j ≠ i) :
    (scan_body env j s).1.gp_states i = s.gp_states i := by
  by_cases h1 : s.m_pGamePad j = 0
  · by_cases h2 : env.GetDevice (j + 1) = 0
    · rw [scan_body_absent env j s h1 h2]
    · cases h3 : env.GetInitialState (env.GetDevice (j + 1)) with
      | none => rw [scan_body_null env j s h1 h2 h3]
      | some st =>
        rw [scan_body_commit env j s st h1 h2 h3]
        exact Function.update_noteq (fun e => hji e.symm) _ _
  · rw [scan_body_busy env j s h1]

theorem scan_body_gp_idle (env : PlugEnv) (i : Nat) (s : State)
    (h : s.m_pGamePad i ≠ 0 ∨ env.GetDevice (i + 1) = 0
      ∨ env.GetInitialState (env.GetDevice (i + 1)) = none) :
    (scan_body env i s).1.gp_states = s.gp_states := by
  by_cases h1 : s.m_pGamePad i = 0
  · by_cases h2 : env.GetDevice (i + 1) = 0
    · rw [scan_body_absent env i s h1 h2]
    · have h3 : env.GetInitialState (env.GetDevice (i + 1)) = none := by
        rcases h with h | h | h
        · exact absurd h1 h
        · exact absurd h h2
        · exact h
      rw [scan_body_null env i s h1 h2 h3]
  · rw [scan_body_busy env i s h1]

theorem scan_from_eq_steps (P : Platform) (env : PlugEnv) (n i : Nat) (c : State × List Event) :
    (scan_from env n i c.1).1 = (exec P (scan_steps env n i) c).1 := by
  induction n generalizing i c with
  | zero => rfl
  | succ n ih =>
    unfold scan_from scan_steps
    split_ifs with hp
    · exact ih (i + 1) ((scan_body env i c.1).1, c.2 ++ (scan_body env i c.1).2)
    · rfl

/-- C1: for an in-range slot `i` and every history of scan steps, whole scans, status
callbacks and removals run from the boot state, `kernel_read_pad(i)` returns the buttons
of the most recent store to `gp_states[i]`, or `0` when there is none, and returns the
state as it was; right after a scan step has attached a device with initial state `st`
at slot `i`, it returns the buttons of `st`. The value read is fixed by the arguments of
the operations: it is `0` before any operation; a status callback for slot `i` with
state `st` makes it the buttons of `st` and is recorded with these arguments; a status
callback or a scan step for another slot, a removal, and a scan step for slot `i` that
commits nothing leave it as it was; a scan step for slot `i` that finds the slot empty
and a device whose initial-state query answers `st` makes it the buttons of `st`; and a
whole scan reads as the scan steps it goes through. -/
theorem kernel_read_pad_most_recent_write (P : Platform) (fb : Option CBcmFrameBuffer)
    (ops : List PadOp) (i dev : Nat) (st : TGamePadState)
    (hi : i < P.MAX_GAMEPADS) (hdev : dev ≠ 0) :
    (kernel_read_pad P (exec P ops (boot fb, [])).1 (i : Int)).1
        = ((last_write i (exec P ops (boot fb, [])).2).map TGamePadState.buttons).getD 0
      ∧ (kernel_read_pad P (exec P ops (boot fb, [])).1 (i : Int)).2.1
        = (exec P ops (boot fb, [])).1
      ∧ (kernel_read_pad P
          (exec P [PadOp.scan_step (plugOne dev (some st)) i] (boot fb, [])).1 (i : Int)).1
        = st.buttons
      ∧ (kernel_read_pad P (exec P [] (boot fb, [])).1 (i : Int)).1 = 0
      ∧ (∀ w : TGamePadState,
          (kernel_read_pad P (exec P (ops ++ [PadOp.status i w]) (boot fb, [])).1 (i : Int)).1
            = w.buttons)
      ∧ (∀ (n : Nat) (w : TGamePadState),
          (exec P (ops ++ [PadOp.status n w]) (boot fb, [])).2
            = (exec P ops (boot fb, [])).2 ++ [Event.gp_states_assign n w])
      ∧ (∀ (j : Nat) (w : TGamePadState), j ≠ i →
          (kernel_read_pad P (exec P (ops ++ [PadOp.status j w]) (boot fb, [])).1 (i : Int)).1
            = (kernel_read_pad P (exec P ops (boot fb, [])).1 (i : Int)).1)
      ∧ (∀ d : Nat,
          (kernel_read_pad P (exec P (ops ++ [PadOp.removed d]) (boot fb, [])).1 (i : Int)).1
            = (kernel_read_pad P (exec P ops (boot fb, [])).1 (i : Int)).1)
      ∧ (∀ (env : PlugEnv) (j : Nat), j ≠ i →
          (kernel_read_pad P (exec P (ops ++ [PadOp.scan_step env j]) (boot fb, [])).1 (i : Int)).1
            = (kernel_read_pad P (exec P ops (boot fb, [])).1 (i : Int)).1)
      ∧ (∀ (env : PlugEnv) (w : TGamePadState),
          (exec P ops (boot fb, [])).1.m_pGamePad i = 0 → env.GetDevice (i + 1) ≠ 0 →
          env.GetInitialState (env.GetDevice (i + 1)) = some w →
          (kernel_read_pad P (exec P (ops ++ [PadOp.scan_step env i]) (boot fb, [])).1 (i : Int)).1
            = w.buttons)
      ∧ (∀ env : PlugEnv,
          ((exec P ops (boot fb, [])).1.m_pGamePad i ≠ 0 ∨ env.GetDevice (i + 1) = 0
            ∨ env.GetInitialState (env.GetDevice (i + 1)) = none) →
          (kernel_read_pad P (exec P (ops ++ [PadOp.scan_step env i]) (boot fb, [])).1 (i : Int)).1
            = (kernel_read_pad P (exec P ops (boot fb, [])).1 (i : Int)).1)
      ∧ (∀ env : PlugEnv,
          (kernel_read_pad P (exec P (ops ++ [PadOp.scan_pass env]) (boot fb, [])).1 (i : Int)).1
            = (kernel_read_pad P
                (exec P (ops ++ scan_steps env P.MAX_GAMEPADS 0) (boot fb, [])).1 (i : Int)).1) := by
  have hstep : ∀ op : PadOp, exec P (ops ++ [op]) (boot fb, [])
      = PadOp.step P (exec P ops (boot fb, [])) op := by
    intro op
    rw [exec_append]
    rfl
  refine ⟨?_, ?_, ?_, ?_, ?_, ?_, ?_, ?_, ?_, ?_, ?_, ?_⟩
  · rw [kernel_read_pad_in_range P _ i hi]
    have h := exec_tableInv P ops (boot fb, []) (boot_tableInv fb) i
    simp only [h]
    cases last_write i (exec P ops (boot fb, [])).2 with
    | none => rfl
    | some w => rfl
  · rw [kernel_read_pad_in_range P _ i hi]
  · rw [kernel_read_pad_in_range P _ i hi]
    have h0 : (boot fb).m_pGamePad i = 0 := rfl
    have hd : (plugOne dev (some st)).GetDevice (i + 1) ≠ 0 := hdev
    have hn : (plugOne dev (some st)).GetInitialState ((plugOne dev (some st)).GetDevice (i + 1))
        = some st := rfl
    simp [exec, PadOp.step, scan_body_commit _ i (boot fb) st h0 hd hn]
  · rw [kernel_read_pad_in_range P _ i hi]
    rfl
  · intro w
    rw [hstep, kernel_read_pad_in_range P _ i hi]
    simp [PadOp.step, GamePadStatusHandler]
  · intro n w
    rw [hstep]
    rfl
  · intro j w hji
    rw [hstep, kernel_read_pad_in_range P _ i hi, kernel_read_pad_in_range P _ i hi]
    simp only [PadOp.step, GamePadStatusHandler]
    rw [Function.update_noteq (fun e => hji e.symm)]
  · intro d
    rw [hstep, kernel_read_pad_in_range P _ i hi, kernel_read_pad_in_range P _ i hi]
    rfl
  · intro env j hji
    rw [hstep, kernel_read_pad_in_range P _ i hi, kernel_read_pad_in_range P _ i hi]
    simp only [PadOp.step]
    rw [scan_body_gp_other env i j _ hji]
  · intro env w h0 hd hn
    rw [hstep, kernel_read_pad_in_range P _ i hi]
    simp only [PadOp.step]
    rw [scan_body_commit env i _ w h0 hd hn]
    simp
  · intro env h
    rw [hstep, kernel_read_pad_in_range P _ i hi, kernel_read_pad_in_range P _ i hi]
    simp only [PadOp.step]
    rw [scan_body_gp_idle env i _ h]
  · intro env
    rw [hstep, exec_append, kernel_read_pad_in_range P _ i hi, kernel_read_pad_in_range P _ i hi]
    simp only [PadOp.step, scan]
    rw [scan_from_eq_steps P env P.MAX_GAMEPADS 0 (exec P ops (boot fb, []))]

/-- Instance of C1: four slots, a pad attached at slot 0 with initial buttons `0x01` reads
`0x01` before any status callback, and `0x03` after a status callback that reports
`0x03` for slot 0. -/
theorem kernel_read_pad_most_recent_write_witness :
    (0 < P4.MAX_GAMEPADS ∧ 7 ≠ 0) ∧
      (kernel_read_pad P4
          (exec P4 [PadOp.scan_step (plugOne 7 (some { buttons := 1, axes := [] })) 0]
            (boot none, [])).1 ((0 : Nat) : Int)).1 = 1
      ∧ (kernel_read_pad P4
          (exec P4 ([PadOp.scan_step (plugOne 7 (some { buttons := 1, axes := [] })) 0]
              ++ [PadOp.status 0 { buttons := 3, axes := [] }])
            (boot none, [])).1 ((0 : Nat) : Int)).1 = 3 :=
  ⟨⟨by decide, by decide⟩,
   (kernel_read_pad_most_recent_write P4 none [] 0 7 { buttons := 1, axes := [] }
      (by decide) (by decide)).2.2.1,
   (kernel_read_pad_most_recent_write P4 none
      [PadOp.scan_step (plugOne 7 (some { buttons := 1, axes := [] })) 0] 0 7
      { buttons := 1, axes := [] } (by decide) (by decide)).2.2.2.2.1 { buttons := 3, axes := [] }⟩

/-- C2: for an index below zero or not below `MAX_GAMEPADS`, `kernel_read_pad` returns
`0`, returns the state as it was and makes no call at all (the critical section is
not entered). -/
theorem kernel_read_pad_out_of_range (P : Platform) (s : State) (index : Int)
    (h : index < 0 ∨ (P.MAX_GAMEPADS : Int) ≤ index) :
    kernel_read_pad P s index = (0, s, []) := by
  have h1 : index < 0 ∨ index ≥ (P.MAX_GAMEPADS : Int) := h
  simp only [kernel_read_pad, if_pos h1]

/-- Instance of C2: index `-1` and index `4` with four slots, on a table whose cells all
hold buttons `9`. -/
theorem kernel_read_pad_out_of_range_witness :
    (((-1 : Int) < 0 ∨ (P4.MAX_GAMEPADS : Int) ≤ -1) ∧
      kernel_read_pad P4 { boot none with gp_states := fun _ => { buttons := 9, axes := [] } } (-1)
        = (0, { boot none with gp_states := fun _ => { buttons := 9, axes := [] } }, [])) ∧
    (((4 : Int) < 0 ∨ (P4.MAX_GAMEPADS : Int) ≤ 4) ∧
      kernel_read_pad P4 { boot none with gp_states := fun _ => { buttons := 9, axes := [] } } 4
        = (0, { boot none with gp_states := fun _ => { buttons := 9, axes := [] } }, [])) :=
  ⟨⟨Or.inl (by decide), kernel_read_pad_out_of_range P4 _ (-1) (Or.inl (by decide))⟩,
   ⟨Or.inr (by decide), kernel_read_pad_out_of_range P4 _ 4 (Or.inr (by decide))⟩⟩

/-- C3 fails: a pad attached at slot 0 reports buttons `5`, its device is then removed
through `GamePadRemovedHandler`; the slot is empty and `kernel_read_pad(0)` still returns
`5`. -/
theorem kernel_read_pad_removed_slot_stale :
    (exec P4 [PadOp.scan_step (plugOne 7 (some { buttons := 5, axes := [] })) 0, PadOp.removed 7]
        (boot none, [])).1.m_pGamePad 0 = 0 ∧
    (kernel_read_pad P4
        (exec P4 [PadOp.scan_step (plugOne 7 (some { buttons := 5, axes := [] })) 0,
          PadOp.removed 7] (boot none, [])).1 0).1 = 5 ∧
    (kernel_read_pad P4
        (exec P4 [PadOp.scan_step (plugOne 7 (some { buttons := 5, axes := [] })) 0,
          PadOp.removed 7] (boot none, [])).1 0).1 ≠ 0 := by
  refine ⟨by decide, by decide, by decide⟩

theorem removedFrom_first (d : Nat) (m : Nat → Nat) (n a i : Nat) (hai : a ≤ i)
    (hin : i < a + n) (hno : ∀ j, a ≤ j → j < i → m j ≠ d) (hm : m i = d) :
    removedFrom d m n a = Function.update m i 0 := by
  induction n generalizing a with
  | zero => omega
  | succ n ih =>
    unfold removedFrom
    by_cases hia : a = i
    · subst hia
      rw [if_pos hm]
    · rw [if_neg (hno a (le_refl a) (by omega))]
      exact ih (a + 1) (by omega) (by omega) (fun j h1 h2 => hno j (by omega) h2)

/-- C3 as amended: for an in-range slot `i`, `kernel_read_pad(i)` returns the buttons held
in `gp_states[i]` whatever the device-slot table holds. `GamePadRemovedHandler` clears
the device handle of the first slot that holds the removed device, leaves every other
handle as it was (no handle is changed to anything but empty) and does not write
`gp_states`, so after a removal the slot is empty and the value read is the value read
before it. In the boot state, and after every history in which no store to
`gp_states[i]` has been made, it returns `0`. -/
theorem kernel_read_pad_ignores_device_slot (P : Platform) (s : State) (i pDevice : Nat)
    (m : Nat → Nat) (fb : Option CBcmFrameBuffer) (hi : i < P.MAX_GAMEPADS) :
    (kernel_read_pad P { s with m_pGamePad := m } (i : Int)).1 = (s.gp_states i).buttons
      ∧ (GamePadRemovedHandler P s pDevice).gp_states = s.gp_states
      ∧ (kernel_read_pad P (GamePadRemovedHandler P s pDevice) (i : Int)).1
          = (kernel_read_pad P s (i : Int)).1
      ∧ (kernel_read_pad P (boot fb) (i : Int)).1 = 0
      ∧ (∀ ops : List PadOp, last_write i (exec P ops (boot fb, [])).2 = none →
          (kernel_read_pad P (exec P ops (boot fb, [])).1 (i : Int)).1 = 0)
      ∧ ((∀ j, j < i → s.m_pGamePad j ≠ pDevice) → s.m_pGamePad i = pDevice →
          (GamePadRemovedHandler P s pDevice).m_pGamePad i = 0
          ∧ (∀ k, k ≠ i → (GamePadRemovedHandler P s pDevice).m_pGamePad k = s.m_pGamePad k)
          ∧ (kernel_read_pad P (GamePadRemovedHandler P s pDevice) (i : Int)).1
              = (s.gp_states i).buttons)
      ∧ (∀ k, (GamePadRemovedHandler P s pDevice).m_pGamePad k = s.m_pGamePad k
          ∨ (GamePadRemovedHandler P s pDevice).m_pGamePad k = 0) := by
  refine ⟨?_, rfl, ?_, ?_, ?_, ?_, ?_⟩
  · rw [kernel_read_pad_in_range P _ i hi]
  · rw [kernel_read_pad_in_range P _ i hi, kernel_read_pad_in_range P _ i hi]
    rfl
  · rw [kernel_read_pad_in_range P _ i hi]
    rfl
  · intro ops hnone
    rw [kernel_read_pad_in_range P _ i hi]
    have h := exec_tableInv P ops (boot fb, []) (boot_tableInv fb) i
    simp only [h, hnone]
    rfl
  · intro hno hm
    have e : (GamePadRemovedHandler P s pDevice).m_pGamePad = Function.update s.m_pGamePad i 0 :=
      removedFrom_first pDevice s.m_pGamePad P.MAX_GAMEPADS 0 i (Nat.zero_le i) (by omega)
        (fun j _ h2 => hno j h2) hm
    refine ⟨by rw [e]; simp, fun k hk => by rw [e]; exact Function.update_noteq hk _ _, ?_⟩
    rw [kernel_read_pad_in_range P _ i hi]
    rfl
  · intro k
    exact removedFrom_cases pDevice s.m_pGamePad P.MAX_GAMEPADS 0 k

/-- Instance of the amended C3: slot 0 of four holds device `7` with buttons `5`; the
removal of device `7` empties the slot and the read still gives the buttons stored. -/
theorem kernel_read_pad_ignores_device_slot_witness :
    0 < P4.MAX_GAMEPADS ∧
      (kernel_read_pad P4 (GamePadRemovedHandler P4
          (exec P4 [PadOp.scan_step (plugOne 7 (some { buttons := 5, axes := [] })) 0]
            (boot none, [])).1 7) ((0 : Nat) : Int)).1
        = (kernel_read_pad P4
          (exec P4 [PadOp.scan_step (plugOne 7 (some { buttons := 5, axes := [] })) 0]
            (boot none, [])).1 ((0 : Nat) : Int)).1
      ∧ (GamePadRemovedHandler P4
          (exec P4 [PadOp.scan_step (plugOne 7 (some { buttons := 5, axes := [] })) 0]
            (boot none, [])).1 7).m_pGamePad 0 = 0
      ∧ (kernel_read_pad P4 (exec P4 [PadOp.removed 7] (boot none, [])).1 ((0 : Nat) : Int)).1 = 0 :=
  ⟨by decide,
   (kernel_read_pad_ignores_device_slot P4 _ 0 7 (fun _ => 0) none (by decide)).2.2.1,
   ((kernel_read_pad_ignores_device_slot P4
      (exec P4 [PadOp.scan_step (plugOne 7 (some { buttons := 5, axes := [] })) 0]
        (boot none, [])).1 0 7 (fun _ => 0) none (by decide)).2.2.2.2.2.1
      (fun j hj => absurd hj (Nat.not_lt_zero j)) (by decide)).1,
   (kernel_read_pad_ignores_device_slot P4 (boot none) 0 7 (fun _ => 0) none
      (by decide)).2.2.2.2.1 [PadOp.removed 7] (by decide)⟩

/-! ## Hot-plug scan -/

theorem slotInv_extend (s : State) (tr ev : List Event) (m : Nat → Nat)
    (h : SlotInv (s, tr)) (hm : ∀ j, m j ≠ 0 → m j = s.m_pGamePad j)
    (g : Nat → TGamePadState) :
    SlotInv ({ s with m_pGamePad := m, gp_states := g }, tr ++ ev) := by
  intro j hj
  have e := hm j hj
  have hj2 : s.m_pGamePad j ≠ 0 := by rw [← e]; exact hj
  obtain ⟨st, hst⟩ := h j hj2
  refine ⟨st, ?_⟩
  show List.Sublist [Event.GetInitialState (m j) (some st), Event.gp_states_assign j st] (tr ++ ev)
  rw [e]
  exact hst.trans (List.sublist_append_left tr ev)

theorem update_zero_keeps (m : Nat → Nat) (i j : Nat) (h : Function.update m i 0 j ≠ 0) :
    Function.update m i 0 j = m j := by
  by_cases hji : j = i
  · subst hji; simp at h
  · simp [Function.update_noteq hji]

theorem scan_body_slotInv (env : PlugEnv) (i : Nat) (c : State × List Event)
    (h : SlotInv c) : SlotInv ((scan_body env i c.1).1, c.2 ++ (scan_body env i c.1).2) := by
  by_cases h1 : c.1.m_pGamePad i = 0
  · by_cases h2 : env.GetDevice (i + 1) = 0
    · rw [scan_body_absent env i c.1 h1 h2]
      exact slotInv_extend c.1 c.2 _ _ h (update_zero_keeps _ i) c.1.gp_states
    · cases h3 : env.GetInitialState (env.GetDevice (i + 1)) with
      | none =>
        rw [scan_body_null env i c.1 h1 h2 h3]
        exact slotInv_extend c.1 c.2 _ _ h (update_zero_keeps _ i) c.1.gp_states
      | some st =>
        rw [scan_body_commit env i c.1 st h1 h2 h3]
        intro j hj
        by_cases hji : j = i
        · subst hji
          refine ⟨st, ?_⟩
          simp only [Function.update_same]
          refine List.Sublist.trans ?_ (List.sublist_append_right _ _)
          exact List.Sublist.cons _ (List.Sublist.cons₂ _ (List.Sublist.cons _
            (List.Sublist.cons _ (List.Sublist.cons₂ _ (List.nil_sublist _)))))
        · simp only [Function.update_noteq hji] at hj ⊢
          obtain ⟨w, hw⟩ := h j hj
          exact ⟨w, hw.trans (List.sublist_append_left _ _)⟩
  · rw [scan_body_busy env i c.1 h1]
    simpa using h

theorem scan_from_slotInv (env : PlugEnv) (n i : Nat) (c : State × List Event)
    (h : SlotInv c) : SlotInv ((scan_from env n i c.1).1, c.2 ++ (scan_from env n i c.1).2) := by
  induction n generalizing i c with
  | zero =>
    intro j hj
    obtain ⟨w, hw⟩ := h j hj
    exact ⟨w, hw.trans (List.sublist_append_left _ _)⟩
  | succ n ih =>
    unfold scan_from
    split_ifs with hp
    · have h1 := scan_body_slotInv env i c h
      have h2 := ih (i + 1) _ h1
      intro j hj
      obtain ⟨w, hw⟩ := h2 j hj
      refine ⟨w, hw.trans ?_⟩
      simp only [List.append_assoc]
      refine List.Sublist.append (List.Sublist.refl _) ?_
      exact List.Sublist.cons _ (List.Sublist.refl _)
    · intro j hj
      obtain ⟨w, hw⟩ := h j hj
      exact ⟨w, hw.trans (List.sublist_append_left _ _)⟩

theorem step_slotInv (P : Platform) (c : State × List Event) (op : PadOp)
    (h : SlotInv c) : SlotInv (PadOp.step P c op) := by
  cases op with
  | scan_step env i => exact scan_body_slotInv env i c h
  | scan_pass env => exact scan_from_slotInv env _ 0 c h
  | status n st =>
    have := slotInv_extend c.1 c.2 [Event.gp_states_assign n st] c.1.m_pGamePad h
      (fun _ _ => rfl) (Function.update c.1.gp_states n st)
    exact this
  | removed dev =>
    have := slotInv_extend c.1 c.2 [] (removedFrom dev c.1.m_pGamePad P.MAX_GAMEPADS 0) h
      (fun j hj => (removedFrom_cases dev c.1.m_pGamePad P.MAX_GAMEPADS 0 j).resolve_right hj)
      c.1.gp_states
    simpa [PadOp.step, GamePadRemovedHandler] using this

theorem exec_slotInv (P : Platform) (ops : List PadOp) (c : State × List Event)
    (h : SlotInv c) : SlotInv (exec P ops c) := by
  induction ops generalizing c with
  | nil => exact h
  | cons op ops ih => exact ih _ (step_slotInv P c op h)

theorem boot_slotInv (fb : Option CBcmFrameBuffer) : SlotInv (boot fb, []) := by
  intro i hi
  exact absurd rfl hi

/-- C10: after every history of scan steps, whole scans, status callbacks and removals
run from the boot state, a slot with a device handle has had `gp_states[i]` stored from
the answer of that device's initial-state query, and one more scan step keeps this.
When the scan step for an empty slot `i` acquires a device whose initial-state query
answers null, the slot is empty again, `gp_states` is as before, the failure message
is written to the log, no handler is registered, and the scan goes on with slot
`i + 1`. -/
theorem scan_slot_invariant (P : Platform) (fb : Option CBcmFrameBuffer) (ops : List PadOp)
    (env : PlugEnv) (i n : Nat) (s : State)
    (hempty : s.m_pGamePad i = 0) (hdev : env.GetDevice (i + 1) ≠ 0)
    (hnull : env.GetInitialState (env.GetDevice (i + 1)) = none)
    (hpnp : env.UpdatePlugAndPlay i = true) :
    SlotInv (exec P ops (boot fb, []))
      ∧ (∀ (env2 : PlugEnv) (j : Nat),
          SlotInv (exec P (ops ++ [PadOp.scan_step env2 j]) (boot fb, [])))
      ∧ (scan_body env i s).1.m_pGamePad i = 0
      ∧ (scan_body env i s).1.gp_states = s.gp_states
      ∧ (scan_body env i s).1 = s
      ∧ (scan_body env i s).2 =
          [Event.GetDevice (i + 1) (env.GetDevice (i + 1)),
           Event.GetInitialState (env.GetDevice (i + 1)) none,
           Event.f_write "Could not initialize gamepad!\n", Event.f_sync]
      ∧ (∀ d, Event.RegisterRemovedHandler d ∉ (scan_body env i s).2
            ∧ Event.RegisterStatusHandler d ∉ (scan_body env i s).2)
      ∧ scan_from env (n + 1) i s =
          ((scan_from env n (i + 1) s).1,
            Event.UpdatePlugAndPlay true :: (scan_body env i s).2 ++ (scan_from env n (i + 1) s).2) := by
  have hs : (scan_body env i s).1 = s := by
    rw [scan_body_null env i s hempty hdev hnull]
    cases s
    simp only [State.mk.injEq, true_and, and_true] at hempty ⊢
    rw [← hempty]
    exact Function.update_eq_self i _
  refine ⟨exec_slotInv P ops _ (boot_slotInv fb),
    fun _ _ => exec_slotInv P _ _ (boot_slotInv fb), ?_, ?_, hs, ?_, ?_, ?_⟩
  · rw [hs]; exact hempty
  · rw [hs]
  · rw [scan_body_null env i s hempty hdev hnull]
  · intro d
    rw [scan_body_null env i s hempty hdev hnull]
    simp
  · simp only [scan_from, hpnp, if_true, hs]

/-- Instance of C10: slot 0 of the boot state, a device `7` whose initial-state query
answers null, three more slots to scan. -/
theorem scan_slot_invariant_witness :
    ((boot none).m_pGamePad 0 = 0 ∧ (plugOne 7 none).GetDevice (0 + 1) ≠ 0
        ∧ (plugOne 7 none).GetInitialState ((plugOne 7 none).GetDevice (0 + 1)) = none
        ∧ (plugOne 7 none).UpdatePlugAndPlay 0 = true)
      ∧ (scan_body (plugOne 7 none) 0 (boot none)).2 =
          [Event.GetDevice (0 + 1) ((plugOne 7 none).GetDevice (0 + 1)),
           Event.GetInitialState ((plugOne 7 none).GetDevice (0 + 1)) none,
           Event.f_write "Could not initialize gamepad!\n", Event.f_sync] :=
  ⟨⟨rfl, by decide, rfl, rfl⟩,
   (scan_slot_invariant P4 none [] (plugOne 7 none) 0 3 (boot none) rfl (by decide) rfl rfl).2.2.2.2.2.1⟩

/-! ## Asset loader -/

theorem toInt32_small (K : Nat) (h : K < 2 ^ 31) : toInt32 K = (K : Int) := by
  have h1 : K % 2 ^ 32 = K := Nat.mod_eq_of_lt (by omega)
  unfold toInt32
  rw [h1, if_pos h]

/-- C4 fails as stated: a file that opens and reports `2^31` bytes is refused by the size
check (null, length `0`); a file of 4096 bytes whose read reports a failure gives null
and length `0` too; and a file of 4096 bytes for which the heap has no block left gives
null, not a buffer. -/
theorem kernel_load_asset_open_ok_not_enough :
    ((storageOf FR_OK (2 ^ 31) 65536 FR_OK (2 ^ 31)).f_open "big.bin" = FR_OK
      ∧ (kernel_load_asset (storageOf FR_OK (2 ^ 31) 65536 FR_OK (2 ^ 31)) (boot none) "big.bin").1 = 0
      ∧ kernel_load_asset_len
          (kernel_load_asset (storageOf FR_OK (2 ^ 31) 65536 FR_OK (2 ^ 31)) (boot none) "big.bin").2.1
          ≠ 2 ^ 31)
    ∧ ((storageOf FR_OK 4096 65536 1 0).f_open "sprite.bin" = FR_OK
      ∧ (kernel_load_asset (storageOf FR_OK 4096 65536 1 0) (boot none) "sprite.bin").1 = 0
      ∧ kernel_load_asset_len
          (kernel_load_asset (storageOf FR_OK 4096 65536 1 0) (boot none) "sprite.bin").2.1 ≠ 4096)
    ∧ ((storageOf FR_OK 4096 0 FR_OK 4096).f_open "sprite.bin" = FR_OK
      ∧ (kernel_load_asset (storageOf FR_OK 4096 0 FR_OK 4096) (boot none) "sprite.bin").1 = 0) := by
  refine ⟨⟨rfl, by decide, by decide⟩, ⟨rfl, by decide, by decide⟩, ⟨rfl, by decide⟩⟩

/-- C4 as amended: when the open succeeds, the reported size `K` is below `2^31`, the
allocation of `K` bytes gives a block and the read reports `FR_OK`, `kernel_load_asset`
returns a buffer, the block allocated for `K` bytes, after one open, one size query, one
allocation, one read and one close, and `kernel_load_asset_len` then returns `K`. When
the open fails it returns null after the open alone and `kernel_load_asset_len` returns
`0`, whatever length was cached. Each half holds on its own, for every storage. -/
theorem kernel_load_asset_length (disk : Storage) (s : State) :
    (∀ (path : String) (K : Nat), disk.f_open path = FR_OK → disk.f_size path = K →
        K < 2 ^ 31 → disk.HeapAllocate K ≠ 0 → (disk.f_read path K).1 = FR_OK →
        (kernel_load_asset disk s path).1 ≠ 0
        ∧ (kernel_load_asset disk s path).1 = disk.HeapAllocate K
        ∧ kernel_load_asset_len (kernel_load_asset disk s path).2.1 = (K : Int)
        ∧ (kernel_load_asset disk s path).2.2 =
            [Event.f_open FileRef.fp path, Event.f_size, Event.HeapAllocate (K : Int),
             Event.f_read (K : Int), Event.f_close FileRef.fp])
    ∧ (∀ path : String, disk.f_open path ≠ FR_OK →
        (kernel_load_asset disk s path).1 = 0
        ∧ kernel_load_asset_len (kernel_load_asset disk s path).2.1 = 0
        ∧ (kernel_load_asset disk s path).2.2 = [Event.f_open FileRef.fp path]) := by
  constructor
  · intro path K hopen hsize hK halloc hread
    have hnn : ¬ ((K : Int) < 0) := by omega
    have hptr : (kernel_load_asset disk s path).1 = disk.HeapAllocate K := by
      simp [kernel_load_asset, hopen, hsize, toInt32_small K hK, hnn, hread]
    refine ⟨by rw [hptr]; exact halloc, hptr, ?_, ?_⟩
    · simp [kernel_load_asset, kernel_load_asset_len, hopen, hsize, toInt32_small K hK, hnn,
        hread]
    · simp [kernel_load_asset, hopen, hsize, toInt32_small K hK, hnn, hread]
  · intro path hfail
    simp [kernel_load_asset, kernel_load_asset_len, hfail]

/-- Instance of the amended C4: `sprite.bin` of 4096 bytes loads as a buffer with length
4096; `missing.bin` gives null and length `0` although a length of 77 was cached; and
on a storage where no file opens at all, the load gives null and length `0` as well. -/
theorem kernel_load_asset_length_witness :
    (diskOne.f_open "sprite.bin" = FR_OK ∧ diskOne.f_size "sprite.bin" = 4096
        ∧ 4096 < 2 ^ 31 ∧ diskOne.HeapAllocate 4096 ≠ 0
        ∧ (diskOne.f_read "sprite.bin" 4096).1 = FR_OK
        ∧ diskOne.f_open "missing.bin" ≠ FR_OK
        ∧ (storageOf 4 0 0 0 0).f_open "sprite.bin" ≠ FR_OK)
      ∧ (kernel_load_asset diskOne { boot none with last_asset_len := 77 } "sprite.bin").1 ≠ 0
      ∧ kernel_load_asset_len
          (kernel_load_asset diskOne { boot none with last_asset_len := 77 } "sprite.bin").2.1 = 4096
      ∧ (kernel_load_asset diskOne { boot none with last_asset_len := 77 } "missing.bin").1 = 0
      ∧ kernel_load_asset_len
          (kernel_load_asset diskOne { boot none with last_asset_len := 77 } "missing.bin").2.1 = 0
      ∧ kernel_load_asset_len
          (kernel_load_asset (storageOf 4 0 0 0 0) { boot none with last_asset_len := 77 }
            "sprite.bin").2.1 = 0 :=
  ⟨⟨by decide, rfl, by decide, by decide, rfl, by decide, by decide⟩,
   ((kernel_load_asset_length diskOne { boot none with last_asset_len := 77 }).1
      "sprite.bin" 4096 (by decide) rfl (by decide) (by decide) rfl).1,
   ((kernel_load_asset_length diskOne { boot none with last_asset_len := 77 }).1
      "sprite.bin" 4096 (by decide) rfl (by decide) (by decide) rfl).2.2.1,
   ((kernel_load_asset_length diskOne { boot none with last_asset_len := 77 }).2
      "missing.bin" (by decide)).1,
   ((kernel_load_asset_length diskOne { boot none with last_asset_len := 77 }).2
      "missing.bin" (by decide)).2.1,
   ((kernel_load_asset_length (storageOf 4 0 0 0 0) { boot none with last_asset_len := 77 }).2
      "sprite.bin" (by decide)).2.1⟩

theorem scan_body_isPlug (env : PlugEnv) (i : Nat) (s : State) :
    ∀ e ∈ (scan_body env i s).2, e.isPlug = true := by
  by_cases h1 : s.m_pGamePad i = 0
  · by_cases h2 : env.GetDevice (i + 1) = 0
    · rw [scan_body_absent env i s h1 h2]; simp [Event.isPlug]
    · cases h3 : env.GetInitialState (env.GetDevice (i + 1)) with
      | none => rw [scan_body_null env i s h1 h2 h3]; simp [Event.isPlug]
      | some st => rw [scan_body_commit env i s st h1 h2 h3]; simp [Event.isPlug]
  · rw [scan_body_busy env i s h1]; simp

theorem scan_body_frame (env : PlugEnv) (i : Nat) (s : State) :
    (scan_body env i s).1.update_ticks = s.update_ticks
      ∧ (scan_body env i s).1.render_ticks = s.render_ticks
      ∧ (scan_body env i s).1.running = s.running := by
  by_cases h1 : s.m_pGamePad i = 0
  · by_cases h2 : env.GetDevice (i + 1) = 0
    · rw [scan_body_absent env i s h1 h2]; exact ⟨rfl, rfl, rfl⟩
    · cases h3 : env.GetInitialState (env.GetDevice (i + 1)) with
      | none => rw [scan_body_null env i s h1 h2 h3]; exact ⟨rfl, rfl, rfl⟩
      | some st => rw [scan_body_commit env i s st h1 h2 h3]; exact ⟨rfl, rfl, rfl⟩
  · rw [scan_body_busy env i s h1]; exact ⟨rfl, rfl, rfl⟩

theorem scan_from_isPlug (env : PlugEnv) (n i : Nat) (s : State) :
    ∀ e ∈ (scan_from env n i s).2, e.isPlug = true := by
  induction n generalizing i s with
  | zero => simp [scan_from, Event.isPlug]
  | succ n ih =>
    unfold scan_from
    split_ifs with hp
    · intro e he
      simp only [List.cons_append, List.mem_cons, List.mem_append] at he
      rcases he with he | he | he
      · subst he; rfl
      · exact scan_body_isPlug env i s e he
      · exact ih _ _ e he
    · simp [Event.isPlug]

theorem scan_from_frame (env : PlugEnv) (n i : Nat) (s : State) :
    (scan_from env n i s).1.update_ticks = s.update_ticks
      ∧ (scan_from env n i s).1.render_ticks = s.render_ticks
      ∧ (scan_from env n i s).1.running = s.running := by
  induction n generalizing i s with
  | zero => exact ⟨rfl, rfl, rfl⟩
  | succ n ih =>
    unfold scan_from
    split_ifs with hp
    · obtain ⟨a, b, c⟩ := ih (i + 1) (scan_body env i s).1
      obtain ⟨a2, b2, c2⟩ := scan_body_frame env i s
      exact ⟨a.trans a2, b.trans b2, c.trans c2⟩
    · exact ⟨rfl, rfl, rfl⟩

theorem frame_iteration_events (P : Platform) (it : IterEnv) (s : State) :
    (frame_iteration P it s).2 = (scan P it.plug s).2 ++
      (if P.delta_ns (sub_u64 it.now s.update_ticks) ≤ 0 then [Event.GetClockTicks64 it.now]
       else [Event.GetClockTicks64 it.now, Event.update_ticks_assign it.now,
             Event.game_update (P.delta_ns (sub_u64 it.now s.update_ticks))] ++
         (if P.CLOCKHZ / 60 ≤ sub_u64 it.now s.render_ticks then
            [Event.render_ticks_assign it.now, Event.game_render]
          else [])) := by
  obtain ⟨hu, hr, _⟩ := scan_from_frame it.plug P.MAX_GAMEPADS 0 s
  unfold frame_iteration
  simp only [scan, hu, hr]
  cases it.update_halts <;> cases it.render_halts <;>
    simp only [kernel_halt, hr] <;> split_ifs <;> simp

theorem frame_iteration_cursors (P : Platform) (it : IterEnv) (s : State) :
    (frame_iteration P it s).1.update_ticks =
        (if P.delta_ns (sub_u64 it.now s.update_ticks) ≤ 0 then s.update_ticks else it.now)
      ∧ (frame_iteration P it s).1.render_ticks =
        (if P.delta_ns (sub_u64 it.now s.update_ticks) ≤ 0 then s.render_ticks
         else if P.CLOCKHZ / 60 ≤ sub_u64 it.now s.render_ticks then it.now
         else s.render_ticks) := by
  obtain ⟨hu, hr, _⟩ := scan_from_frame it.plug P.MAX_GAMEPADS 0 s
  unfold frame_iteration
  simp only [scan, hu, hr]
  cases it.update_halts <;> cases it.render_halts <;>
    simp only [kernel_halt, hr] <;> split_ifs <;> simp [hu, hr]

theorem frame_iteration_isFrame (P : Platform) (it : IterEnv) (s : State) :
    ∀ e ∈ (frame_iteration P it s).2, e.isFrame = true := by
  intro e he
  rw [frame_iteration_events] at he
  rw [List.mem_append] at he
  rcases he with he | he
  · have := scan_from_isPlug it.plug P.MAX_GAMEPADS 0 s e he
    cases e <;> simp_all [Event.isFrame, Event.isPlug]
  · revert e
    split_ifs <;> simp [Event.isFrame]

theorem frame_loop_isFrame (P : Platform) (script : List IterEnv) (s : State) :
    ∀ e ∈ (frame_loop P script s).2, e.isFrame = true := by
  induction script generalizing s with
  | nil => simp [frame_loop]
  | cons it rest ih =>
    unfold frame_loop
    split_ifs with hr
    · intro e he
      simp only [List.mem_append] at he
      rcases he with he | he
      · exact frame_iteration_isFrame P it s e he
      · exact ih _ e he
    · simp

theorem scan_isPlug (P : Platform) (env : PlugEnv) (s : State) :
    ∀ e ∈ (scan P env s).2, e.isPlug = true :=
  scan_from_isPlug env P.MAX_GAMEPADS 0 s

theorem scan_no_runtime (P : Platform) (env : PlugEnv) (s : State) (e : Event)
    (he : e ∈ (scan P env s).2) : e.isRuntime = false ∧ e.renderTick = none := by
  have := scan_from_isPlug env P.MAX_GAMEPADS 0 s e he
  cases e <;> simp_all [Event.isPlug, Event.isRuntime, Event.renderTick]

theorem frame_iteration_update_mem (P : Platform) (it : IterEnv) (s : State) (d : Int) :
    Event.game_update d ∈ (frame_iteration P it s).2 ↔
      (d = P.delta_ns (sub_u64 it.now s.update_ticks) ∧ 0 < d) := by
  rw [frame_iteration_events, List.mem_append]
  constructor
  · rintro (h | h)
    · have := (scan_no_runtime P it.plug s _ h).1
      simp [Event.isRuntime] at this
    · split_ifs at h with h1 h2
      · simp at h
      · simp at h
        subst h
        exact ⟨rfl, by omega⟩
      · simp at h
        subst h
        exact ⟨rfl, by omega⟩
  · rintro ⟨rfl, hpos⟩
    right
    have h1 : ¬ P.delta_ns (sub_u64 it.now s.update_ticks) ≤ 0 := by omega
    simp [h1]

theorem frame_loop_update_pos (P : Platform) (script : List IterEnv) (s : State) (d : Int)
    (h : Event.game_update d ∈ (frame_loop P script s).2) : 0 < d := by
  induction script generalizing s with
  | nil => simp [frame_loop] at h
  | cons it rest ih =>
    unfold frame_loop at h
    split_ifs at h with hr
    · simp only [List.mem_append] at h
      rcases h with h | h
      · exact ((frame_iteration_update_mem P it s d).1 h).2
      · exact ih _ h
    · simp at h

/-- C6: in a frame-loop iteration with computed delta `dt`, `game_update` is called only
with `dt` and only when `dt` is positive, and it is called exactly when `dt` is
positive. When `dt > 0` the calls after the scan are the clock read, the store of
`now` to `update_ticks`, `game_update dt` and then either nothing or the store to
`render_ticks` and `game_render`; when `dt <= 0` the clock read is the only call after
the scan, neither `game_update` nor `game_render` is called, and both cursors keep
their values. Every `game_update` of a whole frame loop has a positive argument. -/
theorem frame_iteration_update_positive (P : Platform) (it : IterEnv) (s : State)
    (script : List IterEnv) :
    (∀ d, Event.game_update d ∈ (frame_iteration P it s).2 →
        d = P.delta_ns (sub_u64 it.now s.update_ticks) ∧ 0 < d)
    ∧ ((∃ d, Event.game_update d ∈ (frame_iteration P it s).2) ↔
        0 < P.delta_ns (sub_u64 it.now s.update_ticks))
    ∧ (if 0 < P.delta_ns (sub_u64 it.now s.update_ticks) then
        (frame_iteration P it s).1.update_ticks = it.now
        ∧ ∃ tail, (frame_iteration P it s).2 = (scan P it.plug s).2 ++
              [Event.GetClockTicks64 it.now, Event.update_ticks_assign it.now,
               Event.game_update (P.delta_ns (sub_u64 it.now s.update_ticks))] ++ tail
            ∧ (tail = [] ∨ tail = [Event.render_ticks_assign it.now, Event.game_render])
       else
        (frame_iteration P it s).2 = (scan P it.plug s).2 ++ [Event.GetClockTicks64 it.now]
        ∧ (∀ d, Event.game_update d ∉ (frame_iteration P it s).2)
        ∧ Event.game_render ∉ (frame_iteration P it s).2
        ∧ (frame_iteration P it s).1.update_ticks = s.update_ticks
        ∧ (frame_iteration P it s).1.render_ticks = s.render_ticks)
    ∧ (∀ d, Event.game_update d ∈ (frame_loop P script s).2 → 0 < d) := by
  refine ⟨fun d h => (frame_iteration_update_mem P it s d).1 h, ?_, ?_,
    fun d h => frame_loop_update_pos P script s d h⟩
  · constructor
    · rintro ⟨d, h⟩
      obtain ⟨rfl, hpos⟩ := (frame_iteration_update_mem P it s d).1 h
      exact hpos
    · intro h
      exact ⟨_, (frame_iteration_update_mem P it s _).2 ⟨rfl, h⟩⟩
  · obtain ⟨hu, hr⟩ := frame_iteration_cursors P it s
    split_ifs with hpos
    · have h1 : ¬ P.delta_ns (sub_u64 it.now s.update_ticks) ≤ 0 := by omega
      refine ⟨by rw [hu, if_neg h1], ?_⟩
      rw [frame_iteration_events, if_neg h1]
      by_cases hc : P.CLOCKHZ / 60 ≤ sub_u64 it.now s.render_ticks
      · exact ⟨_, by rw [if_pos hc, List.append_assoc], Or.inr rfl⟩
      · exact ⟨_, by rw [if_neg hc, List.append_assoc], Or.inl rfl⟩
    · have h1 : P.delta_ns (sub_u64 it.now s.update_ticks) ≤ 0 := by omega
      have hev : (frame_iteration P it s).2 =
          (scan P it.plug s).2 ++ [Event.GetClockTicks64 it.now] := by
        rw [frame_iteration_events, if_pos h1]
      refine ⟨hev, ?_, ?_, by rw [hu, if_pos h1], by rw [hr, if_pos h1]⟩
      · intro d h
        have := ((frame_iteration_update_mem P it s d).1 h)
        omega
      · intro h
        rw [hev, List.mem_append] at h
        rcases h with h | h
        · have := (scan_no_runtime P it.plug s _ h).1
          simp [Event.isRuntime] at this
        · simp at h

/-- Instance of C6: from cursors at tick 100, an iteration that reads tick 100 again
calls nothing but the scan and the clock, and one that reads tick 150 calls
`game_update 50000`. -/
theorem frame_iteration_update_positive_witness :
    (frame_iteration P4 { plug := plugNone, now := 100, update_halts := false, render_halts := false }
        { boot none with update_ticks := 100, render_ticks := 100 }).2
      = [Event.UpdatePlugAndPlay false, Event.GetClockTicks64 100]
    ∧ (frame_iteration P4 { plug := plugNone, now := 150, update_halts := false, render_halts := false }
        { boot none with update_ticks := 100, render_ticks := 100 }).2
      = [Event.UpdatePlugAndPlay false, Event.GetClockTicks64 150,
         Event.update_ticks_assign 150, Event.game_update 50000]
    ∧ (Event.game_update 50000 ∈ (frame_iteration P4
          { plug := plugNone, now := 150, update_halts := false, render_halts := false }
          { boot none with update_ticks := 100, render_ticks := 100 }).2
        ∧ (0 : Int) < 50000) :=
  ⟨by decide, by decide, by decide,
   ((frame_iteration_update_positive P4
      { plug := plugNone, now := 150, update_halts := false, render_halts := false }
      { boot none with update_ticks := 100, render_ticks := 100 } []).1 50000 (by decide)).2⟩

theorem sub_u64_of_le (a b : Nat) (hba : b ≤ a) (ha : a < 2 ^ 64) : sub_u64 a b = a - b := by
  unfold sub_u64
  have hb : b % 2 ^ 64 = b := Nat.mod_eq_of_lt (by omega)
  rw [hb]
  have e : a + (2 ^ 64 - b) = (a - b) + 2 ^ 64 := by omega
  rw [e, Nat.add_mod_right]
  exact Nat.mod_eq_of_lt (by omega)

theorem render_ticks_of_plug (ev : List Event) (h : ∀ e ∈ ev, e.isPlug = true) :
    render_ticks_of ev = [] := by
  unfold render_ticks_of
  rw [List.filterMap_eq_nil_iff]
  intro e he
  have := h e he
  cases e <;> simp_all [Event.isPlug, Event.renderTick]

theorem render_ticks_of_iteration (P : Platform) (it : IterEnv) (s : State) :
    render_ticks_of (frame_iteration P it s).2 =
      (if P.delta_ns (sub_u64 it.now s.update_ticks) ≤ 0 then []
       else if P.CLOCKHZ / 60 ≤ sub_u64 it.now s.render_ticks then [it.now] else []) := by
  rw [frame_iteration_events]
  have h0 := render_ticks_of_plug _ (scan_isPlug P it.plug s)
  unfold render_ticks_of at h0 ⊢
  rw [List.filterMap_append, h0]
  split_ifs <;> simp [List.filterMap_cons, Event.renderTick]

theorem render_calls_plug (t : Nat) (ev rest : List Event) (h : ∀ e ∈ ev, e.isPlug = true) :
    render_calls t (ev ++ rest) = render_calls t rest := by
  induction ev with
  | nil => rfl
  | cons e ev ih =>
    have he := h e (List.mem_cons_self e ev)
    have ih2 := ih (fun x hx => h x (List.mem_cons_of_mem e hx))
    cases e <;> simp_all [Event.isPlug, render_calls]

theorem render_calls_iteration (P : Platform) (it : IterEnv) (s : State) (t : Nat)
    (rest : List Event) :
    render_calls t ((frame_iteration P it s).2 ++ rest) =
      render_ticks_of (frame_iteration P it s).2 ++ render_calls it.now rest := by
  rw [render_ticks_of_iteration, frame_iteration_events, List.append_assoc,
    render_calls_plug t _ _ (scan_isPlug P it.plug s)]
  split_ifs <;> simp [render_calls]

theorem render_calls_loop (P : Platform) (script : List IterEnv) (s : State) (t : Nat) :
    render_calls t (frame_loop P script s).2 = render_ticks_of (frame_loop P script s).2 := by
  induction script generalizing s t with
  | nil => rfl
  | cons it rest ih =>
    unfold frame_loop
    split_ifs with hr
    · simp only
      rw [render_calls_iteration, ih]
      simp [render_ticks_of, List.filterMap_append]
    · rfl

theorem frame_loop_render_chain (P : Platform) (script : List IterEnv) (s : State)
    (hs : List.Sorted (· ≤ ·) (s.render_ticks :: script.map (·.now)))
    (hb : ∀ t ∈ script.map (·.now), t < 2 ^ 64) :
    List.Chain (fun a b => a + P.CLOCKHZ / 60 ≤ b) s.render_ticks
      (render_ticks_of (frame_loop P script s).2) := by
  induction script generalizing s with
  | nil => exact List.Chain.nil
  | cons it rest ih =>
    unfold frame_loop
    split_ifs with hr
    · simp only [List.map_cons, List.sorted_cons, List.mem_cons, forall_eq_or_imp] at hs hb
      obtain ⟨⟨hrn, hrrest⟩, hnrest, hsrest⟩ := hs
      obtain ⟨hnb, hbrest⟩ := hb
      obtain ⟨-, hrt⟩ := frame_iteration_cursors P it s
      have hsub := sub_u64_of_le it.now s.render_ticks hrn hnb
      have hsplit : render_ticks_of ((frame_iteration P it s).2
            ++ (frame_loop P rest (frame_iteration P it s).1).2)
          = render_ticks_of (frame_iteration P it s).2
            ++ render_ticks_of (frame_loop P rest (frame_iteration P it s).1).2 := by
        simp [render_ticks_of, List.filterMap_append]
      simp only [hsplit, render_ticks_of_iteration]
      by_cases hd : P.delta_ns (sub_u64 it.now s.update_ticks) ≤ 0
      · rw [if_pos hd] at hrt ⊢
        have := ih (frame_iteration P it s).1
          (by rw [hrt]; exact List.sorted_cons.2 ⟨hrrest, hsrest⟩) hbrest
        rw [hrt] at this
        simpa using this
      · rw [if_neg hd] at hrt ⊢
        by_cases hc : P.CLOCKHZ / 60 ≤ sub_u64 it.now s.render_ticks
        · rw [if_pos hc] at hrt ⊢
          have := ih (frame_iteration P it s).1
            (by rw [hrt]; exact List.sorted_cons.2 ⟨hnrest, hsrest⟩) hbrest
          rw [hrt] at this
          refine List.Chain.cons ?_ this
          rw [hsub] at hc
          omega
        · rw [if_neg hc] at hrt ⊢
          have := ih (frame_iteration P it s).1
            (by rw [hrt]; exact List.sorted_cons.2 ⟨hrrest, hsrest⟩) hbrest
          rw [hrt] at this
          simpa using this
    · exact List.Chain.nil

theorem scan_count_render (P : Platform) (env : PlugEnv) (s : State) :
    (scan P env s).2.count Event.game_render = 0 := by
  rw [List.count_eq_zero]
  intro h
  have := (scan_no_runtime P env s _ h).1
  simp [Event.isRuntime] at this

theorem frame_iteration_count_render (P : Platform) (it : IterEnv) (s : State) :
    (frame_iteration P it s).2.count Event.game_render =
      (if P.delta_ns (sub_u64 it.now s.update_ticks) ≤ 0 then 0
       else if P.CLOCKHZ / 60 ≤ sub_u64 it.now s.render_ticks then 1 else 0) := by
  rw [frame_iteration_events, List.count_append, scan_count_render]
  split_ifs <;> simp [List.count_cons]

theorem two_iterations_one_render (P : Platform) (it1 it2 : IterEnv) (s : State)
    (h1 : it1.now = s.render_ticks + P.CLOCKHZ / 30) (h2 : it1.now ≤ it2.now)
    (h3 : it2.now < it1.now + P.CLOCKHZ / 60) (h4 : it2.now < 2 ^ 64)
    (hpos : 0 < P.delta_ns (sub_u64 it1.now s.update_ticks)
      ∨ 0 < P.delta_ns (sub_u64 it2.now s.update_ticks)) :
    ((frame_iteration P it1 s).2
      ++ (frame_iteration P it2 (frame_iteration P it1 s).1).2).count Event.game_render = 1 := by
  obtain ⟨hu, hr⟩ := frame_iteration_cursors P it1 s
  have e1 : sub_u64 it1.now s.render_ticks = it1.now - s.render_ticks :=
    sub_u64_of_le _ _ (by omega) (by omega)
  have c1 : P.CLOCKHZ / 60 ≤ sub_u64 it1.now s.render_ticks := by rw [e1]; omega
  rw [List.count_append, frame_iteration_count_render, frame_iteration_count_render, hu, hr]
  by_cases hd1 : P.delta_ns (sub_u64 it1.now s.update_ticks) ≤ 0
  · have hd2 : ¬ P.delta_ns (sub_u64 it2.now s.update_ticks) ≤ 0 := by omega
    have e2 : sub_u64 it2.now s.render_ticks = it2.now - s.render_ticks :=
      sub_u64_of_le _ _ (by omega) h4
    have c2 : P.CLOCKHZ / 60 ≤ sub_u64 it2.now s.render_ticks := by rw [e2]; omega
    simp only [if_pos hd1, if_neg hd2, if_pos c2]
  · have e2 : sub_u64 it2.now it1.now = it2.now - it1.now := sub_u64_of_le _ _ h2 h4
    have c2 : ¬ P.CLOCKHZ / 60 ≤ sub_u64 it2.now it1.now := by rw [e2]; omega
    simp only [if_neg hd1, if_pos c1, if_neg c2]
    split_ifs <;> rfl

/-- C7: when the tick reads of the frame-loop iterations are non-decreasing from the
value of `render_ticks` on and fit in 64 bits, the tick values at which `game_render` is
called are pairwise consecutive at least `CLOCKHZ / 60` apart, they are the values
stored to `render_ticks`, those values are non-decreasing from the starting value on,
and an iteration calls `game_render` at most once. In particular, when the first of two
successive iterations reads a tick `CLOCKHZ / 30` after the last render, the second
reads one less than `CLOCKHZ / 60` later, and one of the two computes a positive
delta, the two iterations call `game_render` exactly once. -/
theorem render_spacing (P : Platform) (script : List IterEnv) (s : State)
    (it it1 it2 : IterEnv) (s1 s2 : State)
    (hs : List.Sorted (· ≤ ·) (s.render_ticks :: script.map (·.now)))
    (hb : ∀ t ∈ script.map (·.now), t < 2 ^ 64)
    (h1 : it1.now = s2.render_ticks + P.CLOCKHZ / 30) (h2 : it1.now ≤ it2.now)
    (h3 : it2.now < it1.now + P.CLOCKHZ / 60) (h4 : it2.now < 2 ^ 64)
    (hpos : 0 < P.delta_ns (sub_u64 it1.now s2.update_ticks)
      ∨ 0 < P.delta_ns (sub_u64 it2.now s2.update_ticks)) :
    List.Chain' (fun a b => a + P.CLOCKHZ / 60 ≤ b)
        (render_calls s.render_ticks (frame_loop P script s).2)
      ∧ render_calls s.render_ticks (frame_loop P script s).2
          = render_ticks_of (frame_loop P script s).2
      ∧ List.Chain' (· ≤ ·) (s.render_ticks :: render_ticks_of (frame_loop P script s).2)
      ∧ (frame_iteration P it s1).2.count Event.game_render ≤ 1
      ∧ ((frame_iteration P it1 s2).2
          ++ (frame_iteration P it2 (frame_iteration P it1 s2).1).2).count Event.game_render = 1 := by
  have hch := frame_loop_render_chain P script s hs hb
  refine ⟨?_, render_calls_loop P script s _, ?_, ?_,
    two_iterations_one_render P it1 it2 s2 h1 h2 h3 h4 hpos⟩
  · rw [render_calls_loop]
    have h : List.Chain' (fun a b => a + P.CLOCKHZ / 60 ≤ b)
        (s.render_ticks :: render_ticks_of (frame_loop P script s).2) := hch
    exact h.tail
  · have h : List.Chain' (fun a b => a + P.CLOCKHZ / 60 ≤ b)
        (s.render_ticks :: render_ticks_of (frame_loop P script s).2) := hch
    exact h.imp (fun a b hab => by omega)
  · rw [frame_iteration_count_render]
    split_ifs <;> omega

/-- Instance of C7: a 1 MHz tick, the last render at tick 100, iterations at ticks 33433
(that is `CLOCKHZ / 30` later) and 33533: one render, at tick 33433. -/
theorem render_spacing_witness :
    (List.Sorted (· ≤ ·) ((cursorsAt 100).render_ticks :: [tickAt 33433, tickAt 33533].map (·.now))
        ∧ (∀ t ∈ [tickAt 33433, tickAt 33533].map (·.now), t < 2 ^ 64)
        ∧ (tickAt 33433).now = (cursorsAt 100).render_ticks + P4.CLOCKHZ / 30
        ∧ (tickAt 33433).now ≤ (tickAt 33533).now
        ∧ (tickAt 33533).now < (tickAt 33433).now + P4.CLOCKHZ / 60
        ∧ (tickAt 33533).now < 2 ^ 64
        ∧ (0 < P4.delta_ns (sub_u64 (tickAt 33433).now (cursorsAt 100).update_ticks)
            ∨ 0 < P4.delta_ns (sub_u64 (tickAt 33533).now (cursorsAt 100).update_ticks)))
      ∧ ((frame_iteration P4 (tickAt 33433) (cursorsAt 100)).2
          ++ (frame_iteration P4 (tickAt 33533)
                (frame_iteration P4 (tickAt 33433) (cursorsAt 100)).1).2).count Event.game_render = 1
      ∧ render_calls 100 (frame_loop P4 [tickAt 33433, tickAt 33533] (cursorsAt 100)).2 = [33433] :=
  ⟨⟨by decide, by decide, by decide, by decide, by decide, by decide, Or.inl (by decide)⟩,
   (render_spacing P4 [tickAt 33433, tickAt 33533] (cursorsAt 100)
      (tickAt 33433) (tickAt 33433) (tickAt 33533) (cursorsAt 100) (cursorsAt 100)
      (by decide) (by decide) (by decide) (by decide) (by decide) (by decide)
      (Or.inl (by decide))).2.2.2.2,
   by decide⟩

/-! ## Bring-up and shutdown -/

theorem Run_of_fail (P : Platform) (env : RunEnv) (script : List IterEnv) (s : State)
    (h : (bringup P env s).1 = none) :
    Run P env script s = some (s, (bringup P env s).2 ++ shutdown_label P) := by
  unfold Run
  rcases hb : bringup P env s with ⟨o, ev⟩
  rw [hb] at h
  simp only at h
  subst h
  rfl

theorem Run_of_loop (P : Platform) (env : RunEnv) (script : List IterEnv) (s s1 : State)
    (h : (bringup P env s).1 = some s1) :
    Run P env script s =
      (if (frame_loop P script s1).1.running then none
       else some ((frame_loop P script s1).1,
         (bringup P env s).2 ++ (frame_loop P script s1).2 ++ [Event.game_shutdown]
           ++ shutdown_label P)) := by
  unfold Run
  rcases hb : bringup P env s with ⟨o, ev⟩
  rw [hb] at h
  simp only at h
  subst h
  rfl

theorem bringup_failed (P : Platform) (env : RunEnv) (s : State)
    (h : bringup_ok env s = false) :
    (bringup P env s).1 = none
      ∧ (∀ e ∈ (bringup P env s).2, e.isRuntime = false
          ∧ e ≠ Event.f_close FileRef.log_file ∧ e ≠ Event.f_unmount P.DRIVE) := by
  unfold bringup
  unfold bringup_ok at h
  by_cases hm : env.f_mount = FR_OK
  · by_cases hl : env.f_open_log = FR_OK
    · cases hfb : s.s_pFrameBuffer with
      | none =>
        simp [hm, hl, hfb, kernel_write_log, Event.isRuntime, Event.isFrame, Event.isPlug]
      | some fb =>
        have hd : fb.GetDepth ≠ 32 := by
          intro hd
          simp [hm, hl, hfb, hd] at h
        simp [hm, hl, hfb, hd, kernel_write_log, Event.isRuntime, Event.isFrame, Event.isPlug]
    · simp [hm, hl, Event.isRuntime, Event.isFrame, Event.isPlug]
  · simp [hm, Event.isRuntime, Event.isFrame, Event.isPlug]

theorem bringup_succeeded (P : Platform) (env : RunEnv) (s : State)
    (h : bringup_ok env s = true) :
    ∃ s1, (bringup P env s).1 = some s1
      ∧ (bringup P env s).2 =
          [Event.f_mount P.DRIVE, Event.f_open FileRef.log_file P.LOGFILE,
           Event.f_write "Logging initialize!\n", Event.f_sync,
           Event.GetClockTicks64 env.ticks0, Event.render_ticks_assign env.ticks0,
           Event.update_ticks_assign env.ticks0, Event.odin_startup_runtime]
      ∧ s1.update_ticks = env.ticks0 ∧ s1.render_ticks = env.ticks0
      ∧ s1.running = (s.running && !env.startup_halts) := by
  unfold bringup
  unfold bringup_ok at h
  cases hfb : s.s_pFrameBuffer with
  | none => simp [hfb] at h
  | some fb =>
    simp only [hfb, Bool.and_eq_true, beq_iff_eq] at h
    obtain ⟨⟨hm, hl⟩, hd⟩ := h
    cases hh : env.startup_halts <;> simp [hm, hl, hd, kernel_write_log, kernel_halt]

theorem isFrame_facts (e : Event) (h : e.isFrame = true) :
    e ≠ Event.odin_startup_runtime ∧ e ≠ Event.game_shutdown
      ∧ e ≠ Event.f_close FileRef.log_file ∧ (∀ d, e ≠ Event.f_unmount d) := by
  cases e <;> simp_all [Event.isFrame, Event.isPlug]

theorem Run_returned_ok (P : Platform) (env : RunEnv) (script : List IterEnv) (s : State)
    (r : State × List Event) (hok : bringup_ok env s = true)
    (h : Run P env script s = some r) :
    ∃ body, r.2 = (bringup P env s).2 ++ body ++ [Event.game_shutdown] ++ shutdown_label P
      ∧ (∀ e ∈ body, e.isFrame = true) := by
  obtain ⟨s1, h1, -⟩ := bringup_succeeded P env s hok
  rw [Run_of_loop P env script s s1 h1] at h
  split_ifs at h with hr
  simp only [Option.some.injEq] at h
  subst h
  exact ⟨_, rfl, frame_loop_isFrame P script s1⟩

/-- C8: `Run` returns unless every bring-up step succeeded and the frame loop is still
running when the script ends. When it returns, `odin_startup_runtime` has been called
if and only if every bring-up step succeeded, and it and `game_shutdown` have both been
called once in that case and not at all otherwise; the history ends with the close of
the log file and the unmount, neither of which occurs earlier, and every call of
`game_shutdown` comes before them; after a failed bring-up no entry point of the
runtime has been called. When the mount fails the calls are the mount, the close and
the unmount only, so the log file is never opened. -/
theorem Run_shutdown_discipline (P : Platform) (env : RunEnv) (script : List IterEnv)
    (s : State) :
    (Run P env script s = none ↔
        (bringup_ok env s = true ∧
          ∃ s1, (bringup P env s).1 = some s1 ∧ (frame_loop P script s1).1.running = true))
    ∧ (∀ r, Run P env script s = some r →
        (Event.odin_startup_runtime ∈ r.2 ↔ bringup_ok env s = true)
        ∧ r.2.count Event.odin_startup_runtime = (if bringup_ok env s then 1 else 0)
        ∧ r.2.count Event.game_shutdown = (if bringup_ok env s then 1 else 0)
        ∧ (∃ pre, r.2 = pre ++ [Event.f_close FileRef.log_file, Event.f_unmount P.DRIVE]
            ∧ pre.count Event.game_shutdown = r.2.count Event.game_shutdown
            ∧ Event.f_close FileRef.log_file ∉ pre ∧ Event.f_unmount P.DRIVE ∉ pre)
        ∧ (bringup_ok env s = false → ∀ e ∈ r.2, e.isRuntime = false))
    ∧ (env.f_mount ≠ FR_OK →
        Run P env script s = some (s, [Event.f_mount P.DRIVE, Event.f_close FileRef.log_file,
          Event.f_unmount P.DRIVE])) := by
  refine ⟨?_, ?_, ?_⟩
  · cases hok : bringup_ok env s with
    | false =>
      obtain ⟨h1, -⟩ := bringup_failed P env s hok
      rw [Run_of_fail P env script s h1]
      simp
    | true =>
      obtain ⟨s1, h1, -⟩ := bringup_succeeded P env s hok
      rw [Run_of_loop P env script s s1 h1, h1]
      by_cases hr : (frame_loop P script s1).1.running = true
      · simp [hr]
      · simp [hr]
  · intro r h
    cases hok : bringup_ok env s with
    | false =>
      obtain ⟨h1, hev⟩ := bringup_failed P env s hok
      rw [Run_of_fail P env script s h1] at h
      simp only [Option.some.injEq] at h
      subst h
      have hst : Event.odin_startup_runtime ∉ (bringup P env s).2 := by
        intro hm
        have := (hev _ hm).1
        simp [Event.isRuntime] at this
      have hsh : Event.game_shutdown ∉ (bringup P env s).2 := by
        intro hm
        have := (hev _ hm).1
        simp [Event.isRuntime] at this
      refine ⟨?_, ?_, ?_, ⟨(bringup P env s).2, rfl, ?_, fun hm => (hev _ hm).2.1 rfl,
        fun hm => (hev _ hm).2.2 rfl⟩, ?_⟩
      · simp [shutdown_label, hst]
      · simp [shutdown_label, List.count_append, List.count_eq_zero.2 hst, List.count_cons]
      · simp [shutdown_label, List.count_append, List.count_eq_zero.2 hsh, List.count_cons]
      · simp [shutdown_label, List.count_append, List.count_cons]
      · intro _ e he
        simp only [shutdown_label, List.mem_append, List.mem_cons, List.mem_singleton,
          List.not_mem_nil, or_false] at he
        rcases he with he | he | he
        · exact (hev e he).1
        · subst he; rfl
        · subst he; rfl
    | true =>
      obtain ⟨body, hbody, hframe⟩ := Run_returned_ok P env script s r hok h
      obtain ⟨s1, -, hbev, -⟩ := bringup_succeeded P env s hok
      rw [hbev] at hbody
      have hst : body.count Event.odin_startup_runtime = 0 :=
        List.count_eq_zero.2 (fun hm => (isFrame_facts _ (hframe _ hm)).1 rfl)
      have hsh : body.count Event.game_shutdown = 0 :=
        List.count_eq_zero.2 (fun hm => (isFrame_facts _ (hframe _ hm)).2.1 rfl)
      have hcl : Event.f_close FileRef.log_file ∉ body :=
        fun hm => (isFrame_facts _ (hframe _ hm)).2.2.1 rfl
      have hum : Event.f_unmount P.DRIVE ∉ body :=
        fun hm => (isFrame_facts _ (hframe _ hm)).2.2.2 _ rfl
      refine ⟨?_, ?_, ?_, ⟨[Event.f_mount P.DRIVE, Event.f_open FileRef.log_file P.LOGFILE,
        Event.f_write "Logging initialize!\n", Event.f_sync,
        Event.GetClockTicks64 env.ticks0, Event.render_ticks_assign env.ticks0,
        Event.update_ticks_assign env.ticks0, Event.odin_startup_runtime]
          ++ body ++ [Event.game_shutdown], ?_, ?_, ?_, ?_⟩, ?_⟩
      · rw [hbody]; simp
      · rw [hbody]; simp [shutdown_label, List.count_append, List.count_cons, hst]
      · rw [hbody]; simp [shutdown_label, List.count_append, List.count_cons, hsh]
      · rw [hbody]; simp [shutdown_label]
      · rw [hbody]; simp [shutdown_label, List.count_append, List.count_cons, hsh]
      · simp [hcl]
      · simp [hum]
      · intro hc; cases hc
  · intro hm
    have hb : bringup P env s = (none, [Event.f_mount P.DRIVE]) := by
      simp [bringup, hm]
    rw [Run_of_fail P env script s (by rw [hb]), hb]
    rfl

/-- Instance of C8: with a failing mount `Run` calls the mount, the close and the unmount
and nothing else; with a successful bring-up and a runtime that halts in its first
update, `game_shutdown` is called once. -/
theorem Run_shutdown_discipline_witness :
    (envNoMount.f_mount ≠ FR_OK
      ∧ Run P4 envNoMount [tickAt 150] (boot (some fb32)) =
          some (boot (some fb32), [Event.f_mount P4.DRIVE, Event.f_close FileRef.log_file,
            Event.f_unmount P4.DRIVE]))
    ∧ (Run P4 envOK [haltAt 150] (boot (some fb32))).map
        (fun r => r.2.count Event.game_shutdown) = some 1 :=
  ⟨⟨by decide,
    (Run_shutdown_discipline P4 envNoMount [tickAt 150] (boot (some fb32))).2.2 (by decide)⟩,
   by decide⟩

end Obox
